import Mathlib

/-!
Verification development for the line-classification and field-extraction
pipeline of `pdf_expense_parser.py` (class `UniversalPDFParser`).

Strings are modelled as `List Char`; Python floats as exact decimals
(`Dec` below — every numeric token the parser handles is a short decimal,
so exact decimal arithmetic is a faithful semantics of the decimal
parsing, negation and comparison the code performs);
`re` searches are modelled by a small backtracking regex engine with
Python's priority semantics (leftmost start, greedy/lazy by candidate
order, first alternative wins); external inputs (the current clock year
used for year-less dates, and the generic `pandas.to_datetime` date
parsing utility) are fields of an `Env` parameter.
-/

namespace PdfParser

/-! ## Python string primitives -/

/-- ASCII decimal digit (Python `\d` on the inputs at hand). -/
def isDigitC (c : Char) : Bool := '0' ≤ c && c ≤ '9'

/-- Python whitespace (`str.strip`, `\s`): space, tab, newline, CR, VT, FF. -/
def isPySpace (c : Char) : Bool :=
  c = ' ' || c = '\t' || c = '\n' || c = '\r' || c = '\x0b' || c = '\x0c'

/-- ASCII letter. -/
def isAlphaC (c : Char) : Bool := ('A' ≤ c && c ≤ 'Z') || ('a' ≤ c && c ≤ 'z')

/-- Python regex word character (for `\b`). -/
def isWordC (c : Char) : Bool := isDigitC c || isAlphaC c || c = '_'

/-- `str.strip()`. -/
def pyStrip (l : List Char) : List Char :=
  ((l.dropWhile isPySpace).reverse.dropWhile isPySpace).reverse

/-- `str.upper()` (ASCII). -/
def pyUpper (l : List Char) : List Char := l.map Char.toUpper

/-- `str.lower()` (ASCII). -/
def pyLower (l : List Char) : List Char := l.map Char.toLower

/-- Helper for `str.split()` (no separator): accumulate the current word. -/
def pySplitWsAux : List Char → List Char → List (List Char)
  | [], acc => if acc.isEmpty then [] else [acc.reverse]
  | c :: r, acc =>
    if isPySpace c then
      if acc.isEmpty then pySplitWsAux r [] else acc.reverse :: pySplitWsAux r []
    else pySplitWsAux r (c :: acc)

/-- `str.split()`: split on whitespace runs, no empty fields. -/
def pySplitWs (l : List Char) : List (List Char) := pySplitWsAux l []

/-- `str.split(sep)` for a one-character separator; keeps empty fields. -/
def splitChar (sep : Char) : List Char → List (List Char)
  | [] => [[]]
  | c :: r =>
    let rest := splitChar sep r
    if c = sep then [] :: rest
    else
      match rest with
      | h :: t => (c :: h) :: t
      | [] => [[c]]

/-- First index at which `pat` occurs as a sublist (Python `str.find` ≥ 0). -/
def indexOfSubAux (pat : List Char) : List Char → Nat → Option Nat
  | [], i => if pat.isEmpty then some i else none
  | c :: t, i => if pat.isPrefixOf (c :: t) then some i else indexOfSubAux pat t (i + 1)

def indexOfSub (pat l : List Char) : Option Nat := indexOfSubAux pat l 0

/-- Python `pat in s`. -/
def containsSub (pat l : List Char) : Bool := (indexOfSub pat l).isSome

/-- Python `str.rfind` as an `Option`: the largest index where `pat` occurs. -/
def rfindSub (pat l : List Char) : Option Nat :=
  ((List.range (l.length + 1)).filter (fun i => pat.isPrefixOf (l.drop i))).getLast?

/-- `str.replace(old, new)` (all occurrences, left to right), with fuel;
`old` is never empty at the call sites. -/
def replaceSubFuel : Nat → List Char → List Char → List Char → List Char
  | 0, _, _, l => l
  | fuel + 1, old, new, l =>
    match indexOfSub old l with
    | none => l
    | some i => l.take i ++ new ++ replaceSubFuel fuel old new (l.drop (i + old.length))

def replaceSub (old new l : List Char) : List Char :=
  replaceSubFuel (l.length + 1) old new l

/-- `str.replace(c, '', n)`: remove the first `n` occurrences of `c`. -/
def removeFirstN (c : Char) (n : Nat) : List Char → List Char
  | [] => []
  | x :: r =>
    if n = 0 then x :: r
    else if x = c then removeFirstN c (n - 1) r
    else x :: removeFirstN c n r

/-- `str.split(sep, 1)`: text before and after the first occurrence. -/
def splitFirstSub (sep l : List Char) : Option (List Char × List Char) :=
  match indexOfSub sep l with
  | none => none
  | some i => some (l.take i, l.drop (i + sep.length))

/-- `int()` of a nonempty all-digit string. -/
def pyInt (l : List Char) : Nat :=
  l.foldl (fun a c => a * 10 + (c.toNat - '0'.toNat)) 0

/-- Left-pad with `'0'` to width `w` (Python `str.zfill` on unsigned input). -/
def padZeros (w : Nat) (l : List Char) : List Char :=
  List.replicate (w - l.length) '0' ++ l

def zfill2 (l : List Char) : List Char := padZeros 2 l

def natToChars (n : Nat) : List Char := Nat.toDigits 10 n

/-- `%m`/`%d` two-digit and `%Y` four-digit decimal rendering. -/
def fmtN2 (n : Nat) : List Char := padZeros 2 (natToChars n)

def fmtY4 (n : Nat) : List Char := padZeros 4 (natToChars n)

/-! ## Exact decimal numbers

Every float the parser manipulates is produced by `float()` on a decimal
string and only negated and compared against decimal literals afterwards.
`Dec` models those values exactly as `num / 10 ^ exp` in lowest decimal
terms; on such short decimals, IEEE-double order and equality agree with
the exact decimal order, so this is a faithful model of the comparisons
the code performs. All operations are structurally recursive, so concrete
runs evaluate in the kernel. -/

structure Dec where
  num : Int
  exp : Nat
deriving DecidableEq, Repr

def pow10 : Nat → Int
  | 0 => 1
  | n + 1 => 10 * pow10 n

/-- Normalize `n / 10 ^ e` to lowest decimal terms. -/
def normDec : Int → Nat → Dec
  | n, 0 => ⟨n, 0⟩
  | n, e + 1 => if n % 10 = 0 then normDec (n / 10) e else ⟨n, e + 1⟩

def mkDec (n : Int) (e : Nat) : Dec := normDec n e

/-- The decimal value of an integer. -/
def Dec.ofInt (n : Int) : Dec := ⟨n, 0⟩

def decZero : Dec := ⟨0, 0⟩

def Dec.neg (d : Dec) : Dec := ⟨-d.num, d.exp⟩

def Dec.absD (d : Dec) : Dec := ⟨|d.num|, d.exp⟩

def Dec.isZero (d : Dec) : Bool := d.num = 0

/-- `a <= b` on the represented values. -/
def Dec.le (a b : Dec) : Bool := a.num * pow10 b.exp ≤ b.num * pow10 a.exp

/-- `a < b` on the represented values. -/
def Dec.lt (a b : Dec) : Bool := a.num * pow10 b.exp < b.num * pow10 a.exp

/-- Python `float()` on a string of digits, dots and minus signs (the only
characters the parser's cleaned amount strings can contain): optional
leading minus, at most one dot, at least one digit, nothing else. -/
def pyFloat? (s : List Char) : Option Dec :=
  let neg : Bool := s.head? = some '-'
  let body := if neg then s.tail else s
  let core : Option Dec :=
    match splitChar '.' body with
    | [ip] => if !ip.isEmpty && ip.all isDigitC then some (mkDec (pyInt ip) 0) else none
    | [ip, fp] =>
      if !(ip.isEmpty && fp.isEmpty) && ip.all isDigitC && fp.all isDigitC then
        some (mkDec ((pyInt ip : Int) * pow10 fp.length + (pyInt fp : Int)) fp.length)
      else none
    | _ => none
  match core with
  | some q => some (if neg then q.neg else q)
  | none => none

/-! ## Regex engine

A syntax tree sufficient for every pattern the parser uses (quantifiers in
those patterns apply only to character classes, so `rep` quantifies a class
and `opt` is the only quantifier over subtrees), and a backtracking matcher
with Python's priority semantics: alternatives in written order, greedy
repetition tries longer first, lazy shorter first. -/

inductive RE where
  | eps : RE
  | cls : (Char → Bool) → RE
  | cat : RE → RE → RE
  | alt : RE → RE → RE
  | opt : RE → RE
  | rep : (Char → Bool) → Nat → Option Nat → Bool → RE
  | grp : Nat → RE → RE
  | wb : RE
  | eos : RE

/-- Group bindings of one match: group index to matched text. -/
abbrev Grps := List (Nat × List Char)

/-- Is the position between `prev` and `next` a `\b` word boundary? -/
def atBoundary (prev next : Option Char) : Bool :=
  let pw := match prev with | some c => isWordC c | none => false
  let nw := match next with | some c => isWordC c | none => false
  pw != nw

/-- The last character of `consumed`, else the incoming preceding character. -/
def lastCh (prev : Option Char) (consumed : List Char) : Option Char :=
  match consumed.getLast? with
  | some c => some c
  | none => prev

/-- All ways `r` can match a prefix of `s` (given the character `prev`
preceding `s`), as (consumed length, group bindings), in Python's
backtracking priority order: the head is the match `re` reports. -/
def mtch : RE → Option Char → List Char → List (Nat × Grps)
  | .eps, _, _ => [(0, [])]
  | .cls p, _, s =>
    match s with
    | c :: _ => if p c then [(1, [])] else []
    | [] => []
  | .cat a b, prev, s =>
    (mtch a prev s).flatMap fun kg =>
      (mtch b (lastCh prev (s.take kg.1)) (s.drop kg.1)).map fun mg =>
        (kg.1 + mg.1, kg.2 ++ mg.2)
  | .alt a b, prev, s => mtch a prev s ++ mtch b prev s
  | .opt a, prev, s => mtch a prev s ++ [(0, [])]
  | .rep p lo hi greedy, _, s =>
    let run := (s.takeWhile p).length
    let cap := match hi with | some h => min run h | none => run
    if cap < lo then []
    else if greedy then (List.range (cap + 1 - lo)).map fun i => (cap - i, [])
    else (List.range (cap + 1 - lo)).map fun i => (lo + i, [])
  | .grp i a, prev, s => (mtch a prev s).map fun kg => (kg.1, (i, s.take kg.1) :: kg.2)
  | .wb, prev, s => if atBoundary prev s.head? then [(0, [])] else []
  | .eos, _, s => if s.isEmpty then [(0, [])] else []

/-- Leftmost match: try each start position in order, report the
highest-priority match at the first position that has one, as
(start, length, groups) — `re.search`. -/
def searchAux (r : RE) : Option Char → List Char → Nat → Option (Nat × Nat × Grps)
  | prev, s, pos =>
    match mtch r prev s with
    | kg :: _ => some (pos, kg.1, kg.2)
    | [] =>
      match s with
      | [] => none
      | c :: t => searchAux r (some c) t (pos + 1)

def reSearch (r : RE) (s : List Char) : Option (Nat × Nat × Grps) :=
  searchAux r none s 0

def reSearchB (r : RE) (s : List Char) : Bool := (reSearch r s).isSome

/-- `re.match`: anchored at the start of the string. -/
def reMatchB (r : RE) (s : List Char) : Bool := !(mtch r none s).isEmpty

/-- `re.findall` (whole-match texts; every pattern it is used on either has
no group or one group spanning the whole pattern, where Python returns the
group — the same text). Fuel: each iteration consumes at least one
character of the remainder. -/
def findAllGo (r : RE) : Nat → Option Char → List Char → List (List Char)
  | 0, _, _ => []
  | fuel + 1, prev, s =>
    match searchAux r prev s 0 with
    | none => []
    | some (st, len, _) =>
      let m := (s.drop st).take len
      let adv := st + (if len = 0 then 1 else len)
      m :: findAllGo r fuel (lastCh prev (s.take adv)) (s.drop adv)

def findAllRe (r : RE) (s : List Char) : List (List Char) :=
  findAllGo r (s.length + 1) none s

/-- Text of group `i` in a match's bindings (`m.group(i)`). -/
def getGrp (g : Grps) (i : Nat) : List Char :=
  ((g.find? fun p => p.1 = i).map Prod.snd).getD []

/-! ### Pattern-building helpers -/

def rchr (c : Char) : RE := RE.cls fun x => x = c

/-- Case-insensitive literal character (`re.IGNORECASE`). -/
def rchrCI (c : Char) : RE := RE.cls fun x => x.toLower = c.toLower

def rlit (s : String) : RE := s.data.foldr (fun c a => RE.cat (rchr c) a) RE.eps

def rlitCI (s : String) : RE := s.data.foldr (fun c a => RE.cat (rchrCI c) a) RE.eps

def rcats (l : List RE) : RE := l.foldr RE.cat RE.eps

def ralts : List RE → RE
  | [] => RE.cls fun _ => false
  | [r] => r
  | r :: t => RE.alt r (ralts t)

/-- `\d{lo,hi}` (greedy). -/
def rd (lo hi : Nat) : RE := RE.rep isDigitC lo (some hi) true

/-- `\d+`. -/
def rdPlus : RE := RE.rep isDigitC 1 none true

/-- `\d*`. -/
def rdStar : RE := RE.rep isDigitC 0 none true

/-- `\s+`. -/
def rsPlus : RE := RE.rep isPySpace 1 none true

/-- `\s*`. -/
def rsStar : RE := RE.rep isPySpace 0 none true

/-- `[\d,]` class. -/
def digitComma (c : Char) : Bool := isDigitC c || c = ','

/-- `[\d,]+`. -/
def rdcPlus : RE := RE.rep digitComma 1 none true

/-- `.` (any character but newline). -/
def dotC (c : Char) : Bool := c != '\n'

/-- `(.+?)` body: lazy one-or-more of `.`. -/
def rdotPlusLazy : RE := RE.rep dotC 1 none false

/-- `(.+)` body: greedy one-or-more of `.`. -/
def rdotPlus : RE := RE.rep dotC 1 none true

/-- `Jan|Feb|...|Dec` under `re.IGNORECASE`. -/
def monthsAbbrCI : RE :=
  ralts (["Jan", "Feb", "Mar", "Apr", "May", "Jun",
          "Jul", "Aug", "Sep", "Oct", "Nov", "Dec"].map rlitCI)

/-! ## Environment for external inputs

`_format_date` and `_convert_month_day_to_date` consult the clock
(`pd.Timestamp.now().year`) and `_format_date`'s last resort calls
`pd.to_datetime(..., errors='coerce')` — an external date-parsing utility.
Both are fields of `Env`; no claim's statement depends on their values. -/

structure Env where
  /-- `str(pd.Timestamp.now().year)` — a four-digit year string. -/
  currentYearStr : List Char
  /-- `pd.to_datetime(s, errors='coerce')` as (year, month, day); `none` = `NaT`. -/
  pdParse : List Char → Option (Nat × Nat × Nat)

/-! ## Field normalizers

`_format_date`'s branch guards are fixed-shape regexes (digit runs joined
by literal separators); since a digit class never matches the separator
that follows it, Python's greedy backtracking over them is equivalent to
maximal-munch, which is how the recognizers below consume input. -/

/-- Consume `\d{1,2}` (maximal; equivalent to the greedy regex here since
what follows is never a digit). -/
def dropDigits12 : List Char → Option (List Char)
  | [] => none
  | c :: r =>
    if isDigitC c then
      match r with
      | c2 :: r2 => if isDigitC c2 then some r2 else some r
      | [] => some []
    else none

/-- Consume one literal character. -/
def dropChar (ch : Char) : List Char → Option (List Char)
  | [] => none
  | c :: r => if c = ch then some r else none

/-- Consume exactly `n` digits (`\d{n}`). -/
def dropDigitsExact : Nat → List Char → Option (List Char)
  | 0, l => some l
  | _ + 1, [] => none
  | n + 1, c :: r => if isDigitC c then dropDigitsExact n r else none

/-- `re.match(r'^\d{1,2}-\d{1,2}-\d{4}$', s)`. -/
def matchDMYHyphenFull (s : List Char) : Bool :=
  (do
    let r1 ← dropDigits12 s
    let r2 ← dropChar '-' r1
    let r3 ← dropDigits12 r2
    let r4 ← dropChar '-' r3
    let r5 ← dropDigitsExact 4 r4
    if r5.isEmpty then some () else none).isSome

/-- `re.match(r'\d{1,2}/\d{1,2}/\d{4}', s)` (prefix match). -/
def matchMDYSlashPrefix (s : List Char) : Bool :=
  (do
    let r1 ← dropDigits12 s
    let r2 ← dropChar '/' r1
    let r3 ← dropDigits12 r2
    let r4 ← dropChar '/' r3
    let _ ← dropDigitsExact 4 r4
    some ()).isSome

/-- `re.match(r'^\d{1,2}/\d{1,2}/\d{4}$', s)`. -/
def matchMDYSlashFull (s : List Char) : Bool :=
  (do
    let r1 ← dropDigits12 s
    let r2 ← dropChar '/' r1
    let r3 ← dropDigits12 r2
    let r4 ← dropChar '/' r3
    let r5 ← dropDigitsExact 4 r4
    if r5.isEmpty then some () else none).isSome

/-- `re.match(r'^\d{1,2}/\d{1,2}$', s)`. -/
def matchMDSlashFull (s : List Char) : Bool :=
  (do
    let r1 ← dropDigits12 s
    let r2 ← dropChar '/' r1
    let r3 ← dropDigits12 r2
    if r3.isEmpty then some () else none).isSome

/-- `re.match(r'^\d{1,2}-\d{1,2}-\d{4}$', s)` — the later, US-labelled
occurrence of the same regex (`# Handle MM-DD-YYYY (US format)`). -/
def matchMMDDYYYYHyphenFull (s : List Char) : Bool :=
  (do
    let r1 ← dropDigits12 s
    let r2 ← dropChar '-' r1
    let r3 ← dropDigits12 r2
    let r4 ← dropChar '-' r3
    let r5 ← dropDigitsExact 4 r4
    if r5.isEmpty then some () else none).isSome

/-- `re.match(r'^\d{1,2}-\d{1,2}$', s)`. -/
def matchMDHyphenFull (s : List Char) : Bool :=
  (do
    let r1 ← dropDigits12 s
    let r2 ← dropChar '-' r1
    let r3 ← dropDigits12 r2
    if r3.isEmpty then some () else none).isSome

/-- `re.match(r'\d{4}-\d{1,2}-\d{1,2}', s)` (prefix match). -/
def matchYMDPrefix (s : List Char) : Bool :=
  (do
    let r1 ← dropDigitsExact 4 s
    let r2 ← dropChar '-' r1
    let r3 ← dropDigits12 r2
    let r4 ← dropChar '-' r3
    let _ ← dropDigits12 r4
    some ()).isSome

/-- `_format_date`'s branches after the DD-MM-YYYY and DD/MM/YYYY checks:
`MM/DD/YYYY` (full), `MM/DD` (current year), `MM-DD-YYYY` (US), `MM-DD`
(current year), `YYYY-MM-DD` pass-through, then the `pd.to_datetime`
fallback; on no parse the original token is returned. -/
def format_date_tail (env : Env) (date_str : List Char) : List Char :=
  if matchMDYSlashFull date_str then
    match splitChar '/' date_str with
    | [month, day, year] => year ++ '-' :: (zfill2 month ++ '-' :: zfill2 day)
    | _ => date_str
  else if matchMDSlashFull date_str then
    match splitChar '/' date_str with
    | [month, day] => env.currentYearStr ++ '-' :: (zfill2 month ++ '-' :: zfill2 day)
    | _ => date_str
  else if matchMMDDYYYYHyphenFull date_str then
    match splitChar '-' date_str with
    | [month, day, year] => year ++ '-' :: (zfill2 month ++ '-' :: zfill2 day)
    | _ => date_str
  else if matchMDHyphenFull date_str then
    match splitChar '-' date_str with
    | [month, day] => env.currentYearStr ++ '-' :: (zfill2 month ++ '-' :: zfill2 day)
    | _ => date_str
  else if matchYMDPrefix date_str then date_str
  else
    let normalized := pyStrip (date_str.filter fun c => c ≠ ',')
    match env.pdParse normalized with
    | some (y, m, d) => fmtY4 y ++ '-' :: (fmtN2 m ++ '-' :: fmtN2 d)
    | none => date_str

/-- `_format_date`: normalize a date token to `YYYY-MM-DD`; first the
DD-MM-YYYY (Indian) branch, then the slash branch with the first-component
day/month disambiguation, then `format_date_tail`. -/
def format_date (env : Env) (date_str : List Char) : List Char :=
  if matchDMYHyphenFull date_str then
    match splitChar '-' date_str with
    | [day, month, year] => year ++ '-' :: (zfill2 month ++ '-' :: zfill2 day)
    | _ => date_str
  else if matchMDYSlashPrefix date_str then
    match splitChar '/' date_str with
    | [first, second, year] =>
      if 12 < pyInt first then year ++ '-' :: (zfill2 second ++ '-' :: zfill2 first)
      else year ++ '-' :: (zfill2 first ++ '-' :: zfill2 second)
    | _ => format_date_tail env date_str
  else format_date_tail env date_str

/-- `_convert_month_day_to_date`'s month_map (`.get(month, '01')`). -/
def month_map (m : List Char) : List Char :=
  if m = "Jan".data then "01".data else if m = "Feb".data then "02".data
  else if m = "Mar".data then "03".data else if m = "Apr".data then "04".data
  else if m = "May".data then "05".data else if m = "Jun".data then "06".data
  else if m = "Jul".data then "07".data else if m = "Aug".data then "08".data
  else if m = "Sep".data then "09".data else if m = "Oct".data then "10".data
  else if m = "Nov".data then "11".data else if m = "Dec".data then "12".data
  else "01".data

/-- `_convert_month_day_to_date`. -/
def convert_month_day_to_date (env : Env) (month day : List Char) : List Char :=
  env.currentYearStr ++ '-' :: (month_map month ++ '-' :: zfill2 day)

/-- The cleaned string `_parse_amount` hands to `float()`: keep only
digits, dot, comma, minus; drop commas; when more than one hyphen remains,
remove all but the last. -/
def parse_amount_cleaned (amount_str : List Char) : List Char :=
  let s := pyStrip amount_str
  let cleaned0 := s.filter fun c => isDigitC c || c = '.' || c = ',' || c = '-'
  let cleaned1 := cleaned0.filter fun c => c ≠ ','
  let hyphens := cleaned1.count '-'
  if 1 < hyphens then removeFirstN '-' (hyphens - 1) cleaned1 else cleaned1

/-- `_parse_amount`: strip; parentheses mean negative; keep only digits,
comma, dot, minus; drop commas; deduplicate hyphens keeping the last; float
conversion with `0.0` on failure or empty. Total — never raises. -/
def parse_amount (amount_str : List Char) : Dec :=
  let s := pyStrip amount_str
  let is_negative : Bool := s.head? = some '(' && s.getLast? = some ')'
  let cleaned := parse_amount_cleaned amount_str
  match (if cleaned.isEmpty then some decZero else pyFloat? cleaned) with
  | none => decZero
  | some value => if is_negative && decZero.lt value then value.neg else value

/-! ## Amount extraction -/

/-- `\(?-?\$?[\d,]+(?:\.\d{2})?\)?`. -/
def flaPat1 : RE :=
  rcats [RE.opt (rchr '('), RE.opt (rchr '-'), RE.opt (rchr '$'), rdcPlus,
         RE.opt (rcats [rchr '.', rd 2 2]), RE.opt (rchr ')')]

/-- `\(?-?[\d,]+(?:\.\d{2})?\)?`. -/
def flaPat2 : RE :=
  rcats [RE.opt (rchr '('), RE.opt (rchr '-'), rdcPlus,
         RE.opt (rcats [rchr '.', rd 2 2]), RE.opt (rchr ')')]

/-- `-?\$?[\d,]+(?:\.\d{2})?`. -/
def flaPat3 : RE :=
  rcats [RE.opt (rchr '-'), RE.opt (rchr '$'), rdcPlus,
         RE.opt (rcats [rchr '.', rd 2 2])]

/-- `[\d,]+(?:\.\d{2})?`. -/
def flaPat4 : RE := rcats [rdcPlus, RE.opt (rcats [rchr '.', rd 2 2])]

/-- `_find_last_amount_string`'s pattern list, in source order. -/
def fla_patterns : List RE := [flaPat1, flaPat2, flaPat3, flaPat4]

/-- `all_matches`: every pattern's `findall` results, concatenated in
pattern order. -/
def all_amount_matches (text : List Char) : List (List Char) :=
  fla_patterns.flatMap fun r => findAllRe r text

/-- The per-match validity test of `_find_last_amount_string`: clean to
digits/dot/comma/minus, drop commas, convert, and keep amounts with
`0.01 <= abs(v) <= 999999.99`. -/
def amount_in_range (m : List Char) : Bool :=
  let clean := m.filter fun c => isDigitC c || c = '.' || c = ',' || c = '-'
  match pyFloat? (clean.filter fun c => c ≠ ',') with
  | some v => Dec.le ⟨1, 2⟩ v.absD && Dec.le v.absD ⟨99999999, 2⟩
  | none => false

/-- `valid_matches` of `_find_last_amount_string`. -/
def valid_amount_matches (text : List Char) : List (List Char) :=
  (all_amount_matches text).filter amount_in_range

/-- `_find_last_amount_string`: `valid_matches[-1] if valid_matches else ''`. -/
def find_last_amount_string (text : List Char) : List Char :=
  (valid_amount_matches text).getLastD []

/-- `_extract_amount_from_text`: last match of
`(\(?-?\$?[\d,]+(?:\.\d{2})?\)?)` through `_parse_amount`, else `0.0`
(the single group spans the whole pattern, so the group text is the match
text). -/
def extract_amount_from_text (text : List Char) : Dec :=
  match (findAllRe flaPat1 text).getLast? with
  | none => decZero
  | some last => parse_amount last

/-! ## Line classifier -/

/-- `[A-Z\s]` under `re.IGNORECASE`. -/
def azsC (c : Char) : Bool := isAlphaC c || isPySpace c

/-- `[A-Z]` under `re.IGNORECASE`. -/
def azC (c : Char) : Bool := isAlphaC c

/-- `[A-Z\s]+`. -/
def razsPlus : RE := RE.rep azsC 1 none true

/-- `_is_non_transaction_line`'s `skip_patterns`, in source order; all are
`^`-anchored, so they are matched at position 0 (`re.search` with a
`'^'`-prefixed pattern and no MULTILINE). `re.IGNORECASE` is modelled by
case-insensitive literals and classes. -/
def skip_patterns : List RE := [
  rcats [rlitCI "PAGE", rsPlus, rdPlus, RE.eos],
  rcats [rlitCI "ACCOUNT", rsPlus, rlitCI "SUMMARY", RE.eos],
  rcats [rlitCI "BALANCE", rsPlus, rlitCI "FORWARD", RE.eos],
  rcats [rlitCI "ENDING", rsPlus, rlitCI "BALANCE", RE.eos],
  rcats [rlitCI "TOTAL", rsPlus, RE.eos],
  rcats [razsPlus, rlitCI "BANK", rsStar, RE.eos],
  rcats [rlitCI "STATEMENT", rsPlus, rlitCI "PERIOD", rsStar, RE.eos],
  rcats [rlitCI "FROM", rsPlus, rd 1 2, rchr '/', rd 1 2, rchr '/', rd 4 4, rsStar, RE.eos],
  rcats [rlitCI "TO", rsPlus, rd 1 2, rchr '/', rd 1 2, rchr '/', rd 4 4, rsStar, RE.eos],
  rcats [rchrCI 'P', rsPlus, rchrCI 'O', rsPlus, rlitCI "BOX", rsPlus, rdPlus],
  rcats [rdPlus, rsPlus, razsPlus, rsPlus, razsPlus, rsPlus,
         RE.rep azC 2 (some 2) true, rsPlus, rd 5 5],
  rcats [razsPlus, rchr ',', rsPlus, RE.rep azC 2 (some 2) true, rsPlus, rd 5 5],
  rcats [rchr '1', rchr '-', rd 3 3, rchr '-', rd 3 3, rchr '-', rd 4 4],
  rcats [rlitCI "DEAL", rsPlus, rlitCI "AND", rsPlus, rlitCI "HARD", rsPlus,
         rlitCI "OF", rsPlus, rlitCI "HEARING"],
  rcats [rlitCI "PARA", rsPlus, rlitCI "ESPANOL"],
  rcats [rlitCI "INTERNATIONAL", rsPlus, rlitCI "CALLS"],
  RE.rep isDigitC 9 (some 12) true,
  rcats [RE.rep azC 2 (some 2) true, rsPlus, rd 3 3, rsPlus, rd 3 3],
  rlitCI "NNNNNNNNNNN",
  rcats [rchrCI 'T', rsPlus, rdPlus, rsPlus, rdPlus],
  rlitCI "CONGRATULATIONS",
  rcats [rlitCI "THANKS", rsPlus, rlitCI "TO", rsPlus, rlitCI "YOUR"],
  rcats [rlitCI "WE", rsPlus, rlitCI "WAIVED"],
  rcats [rlitCI "MONTHLY", rsPlus, rlitCI "SERVICE", rsPlus, rlitCI "FEE"],
  rcats [rlitCI "BASED", rsPlus, rlitCI "ON", rsPlus, rlitCI "AGGREGATED"],
  rcats [rlitCI "BUSINESS", rsPlus, rlitCI "COMPLETE", rsPlus, rlitCI "CHECKING"],
  rcats [rlitCI "CUTOFF", rsPlus, rlitCI "TIME"],
  rcats [rlitCI "MINIMUM", rsPlus, rlitCI "DAILY", rsPlus, rlitCI "BALANCE"],
  rcats [rlitCI "EASTERN", rsPlus, rlitCI "TIME"],
  rcats [rsStar, RE.eos],
  rcats [RE.rep azsC 1 (some 3) true, RE.eos],
  rcats [RE.rep isDigitC 5 none true, RE.eos],
  rcats [RE.rep azsC 20 none true, RE.eos],
  rcats [razsPlus, RE.rep isDigitC 5 none true]]

/-- `_is_non_transaction_line`: any skip pattern matches the uppercased
line (anchored at its start). -/
def is_non_transaction_line (line : List Char) : Bool :=
  let u := pyUpper line
  skip_patterns.any fun r => reMatchB r u

/-- `\d{4}-\d{1,2}-\d{1,2}` as a search pattern. -/
def patYMD : RE := rcats [rd 4 4, rchr '-', rd 1 2, rchr '-', rd 1 2]

/-- `\d{1,2}/\d{1,2}/\d{4}`. -/
def patMDYSlash : RE := rcats [rd 1 2, rchr '/', rd 1 2, rchr '/', rd 4 4]

/-- `\d{1,2}-\d{1,2}-\d{4}`. -/
def patDMYHyphen : RE := rcats [rd 1 2, rchr '-', rd 1 2, rchr '-', rd 4 4]

/-- `(Jan|...|Dec)\s+\d{1,2}` with `re.IGNORECASE`. -/
def patMonDD : RE := rcats [RE.grp 1 monthsAbbrCI, rsPlus, rd 1 2]

/-- `[\d,]+\.?\d{2}`. -/
def patAmount2Dec : RE := rcats [rdcPlus, RE.opt (rchr '.'), rd 2 2]

/-- `\b(DR|CR|DEBIT|CREDIT)\b` with `re.IGNORECASE`. -/
def patDrCrAny : RE :=
  rcats [RE.wb, RE.grp 1 (ralts [rlitCI "DR", rlitCI "CR", rlitCI "DEBIT", rlitCI "CREDIT"]),
         RE.wb]

/-- The transaction keyword list of `_looks_like_transaction`, in source
order (duplicates included). -/
def transaction_keywords : List (List Char) :=
  ["Direct Deposit", "ATM", "Cash", "Deposit", "Withdraw", "Card Purchase",
   "Payment Sent", "Square Inc", "Recurring", "With Pin", "CA Card", "Confirmation",
   "Check Deposit", "Electronic Deposit", "ACH", "Credit", "Debit", "Purchase",
   "Transfer", "Online", "PMT", "Merchant", "Service", "VISA", "Mastercard",
   "Deposit", "Withdrawal", "Transaction", "Purchase", "Payment", "Transfer",
   "UPI", "NEFT", "RTGS", "IMPS", "Bank", "Payment", "Refund", "Fee", "Charge",
   "Opening Balance", "Closing Balance", "Balance", "Statement"].map String.data

/-- The obvious-garbage indicator list of `_looks_like_transaction`. -/
def obvious_garbage_indicators : List (List Char) :=
  ["P O Box", "Columbus OH", "Deal and Hard", "Para Espanol", "International Calls",
   "Congratulations", "thanks to your", "waived", "monthly service fee", "cutoff time",
   "Eastern Time", "Minimum Daily Balance", "Business Complete", "aggregated spending",
   "NNNNNNNNNNN", "T 1 000000000", "DRE 021 142 30321"].map String.data

/-- `_looks_like_transaction`: at least two words AND (a date pattern OR an
amount OR a DR/CR marker OR a keyword) AND no obvious-garbage indicator. -/
def looks_like_transaction (line : List Char) : Bool :=
  let has_text := 2 ≤ (pySplitWs line).length
  let has_valid_date := reSearchB patYMD line || reSearchB patMDYSlash line ||
    reSearchB patDMYHyphen line || reSearchB patMonDD line
  let has_amount := reSearchB patAmount2Dec line
  let has_transaction_type := reSearchB patDrCrAny line
  let lower := pyLower line
  let has_keywords := transaction_keywords.any fun k => containsSub (pyLower k) lower
  let has_obvious_garbage :=
    obvious_garbage_indicators.any fun k => containsSub (pyLower k) lower
  has_text && (has_valid_date || has_amount || has_transaction_type || has_keywords) &&
    !has_obvious_garbage

/-! ## Section detector -/

/-- `chase_section_patterns`, in the source dict's insertion order. -/
def chase_section_patterns : List (List Char × RE) :=
  [("withdrawals".data, ralts [rlitCI "WITHDRAWALS", rlitCI "DEBITS", rlitCI "CHARGES"]),
   ("deposits".data, ralts [rlitCI "DEPOSITS", rlitCI "ADDITIONS", rlitCI "CREDITS"]),
   ("balance".data, ralts [rlitCI "BALANCE", rcats [rlitCI "ACCOUNT", rsPlus, rlitCI "SUMMARY"],
                           rcats [rlitCI "ENDING", rsPlus, rlitCI "BALANCE"]]),
   ("transactions".data, ralts [rlitCI "TRANSACTIONS", rlitCI "ACTIVITY", rlitCI "SUMMARY"])]

/-- `_detect_banking_section`: first section whose pattern matches the
uppercased line. -/
def detect_banking_section (line : List Char) : Option (List Char) :=
  let u := pyUpper line
  (chase_section_patterns.find? fun p => reSearchB p.2 u).map Prod.fst

/-! ## Transaction records -/

/-- The dict a segmenter strategy emits. Keys some strategies do not set
(`transaction_type`, `balance`, `balance_raw`, `branch`) are `Option`s,
`none` meaning the key is absent. -/
structure TxRecord where
  date : List Char
  description : List Char
  amount : Dec
  amount_raw : List Char
  transaction_type : Option (List Char) := none
  balance : Option Dec := none
  balance_raw : Option (List Char) := none
  branch : Option (List Char) := none
  section_ : List Char
  line_number : Nat
  full_text : List Char
deriving DecidableEq, Repr

/-- Python `str()` of a float that is a plain decimal (every amount the
parser produces): sign, integer part, `'.'`, and the shortest exact
fraction (`".0"` for integers). Scientific-notation rendering of extreme
magnitudes is not reproduced; no analyzed value is in that range, and the
field it feeds (`amount_raw`) is provenance only. -/
def pyStrFloat (q : Dec) : List Char :=
  let sign : List Char := if q.num < 0 then ['-'] else []
  let ds := padZeros (q.exp + 1) (natToChars q.num.natAbs)
  let ip := ds.take (ds.length - q.exp)
  let fp := ds.drop (ds.length - q.exp)
  sign ++ ip ++ '.' :: (if q.exp = 0 then ['0'] else fp)

/-! ## Transaction segmenter -/

/-- `(\d{1,2}-\d{1,2}-\d{4})` as used for date capture. -/
def patDMYGrp : RE := RE.grp 1 patDMYHyphen

/-- `\b(DR|CR)\b` (case-sensitive). -/
def patDrCrStrict : RE := rcats [RE.wb, RE.grp 1 (ralts [rlit "DR", rlit "CR"]), RE.wb]

/-- `_parse_tabular_bank_data`'s space-separated branch (shared by the
tab branch's fall-through). -/
def parse_tabular_space (env : Env) (line sec : List Char) (n : Nat) : Option TxRecord :=
  let amounts := findAllRe patAmount2Dec line
  if 2 ≤ amounts.length then
    match reSearch patDMYGrp line with
    | none => none
    | some dm =>
      let date := getGrp dm.2.2 1
      match reSearch patDrCrStrict line with
      | none => none
      | some tm =>
        let trans_type := getGrp tm.2.2 1
        match splitFirstSub trans_type line with
        | none => none
        | some parts =>
          let before_type := pyStrip parts.1
          let after_type := pyStrip parts.2
          let before_type_clean := pyStrip (replaceSub date [] before_type)
          let before_amounts := findAllRe patAmount2Dec before_type_clean
          let amount := match before_amounts.getLast? with
            | some a => a
            | none => amounts.getD 0 []
          let description := match before_amounts.getLast? with
            | some a => pyStrip (replaceSub a [] before_type_clean)
            | none => before_type_clean
          let after_amounts := findAllRe patAmount2Dec after_type
          let balance := match after_amounts.head? with
            | some b => b
            | none => if 1 < amounts.length then amounts.getD 1 [] else "0.00".data
          let branch := match after_amounts.head? with
            | some b => pyStrip (replaceSub b [] after_type)
            | none => after_type
          some { date := format_date env date, description := description,
                 amount := parse_amount amount, amount_raw := amount,
                 transaction_type := some (pyUpper trans_type),
                 balance := some (parse_amount balance), balance_raw := some balance,
                 branch := some branch, section_ := sec, line_number := n,
                 full_text := line }
  else none

/-- `_parse_tabular_bank_data`: tab-separated positional mapping when the
line has a tab and at least 4 fields, else the space-separated branch. -/
def parse_tabular_bank_data (env : Env) (line sec : List Char) (n : Nat) : Option TxRecord :=
  if containsSub ['\t'] line then
    let parts := splitChar '\t' line
    if 4 ≤ parts.length then
      let date := pyStrip (parts.getD 0 [])
      let description := pyStrip (parts.getD 1 [])
      let amount := pyStrip (parts.getD 2 [])
      let trans_type := pyStrip (parts.getD 3 [])
      let balance := if 4 < parts.length then pyStrip (parts.getD 4 []) else []
      let branch := if 5 < parts.length then pyStrip (parts.getD 5 []) else []
      some { date := format_date env date, description := description,
             amount := parse_amount amount, amount_raw := amount,
             transaction_type := some (pyUpper trans_type),
             balance := some (parse_amount balance), balance_raw := some balance,
             branch := some branch, section_ := sec, line_number := n,
             full_text := line }
    else parse_tabular_space env line sec n
  else parse_tabular_space env line sec n

/-- The Indian-format full pattern
`(\d{1,2}-\d{1,2}-\d{4})\s+(.+?)\s+([\d,]+\.?\d{2})\s+(DR|CR)\s+([\d,]+\.?\d{2})\s+(.+)`
(case-sensitive). -/
def indianPattern : RE :=
  rcats [RE.grp 1 patDMYHyphen, rsPlus, RE.grp 2 rdotPlusLazy, rsPlus,
         RE.grp 3 patAmount2Dec, rsPlus, RE.grp 4 (ralts [rlit "DR", rlit "CR"]), rsPlus,
         RE.grp 5 patAmount2Dec, rsPlus, RE.grp 6 rdotPlus]

/-- The same pattern without the trailing branch group. -/
def indianPatternNoBranch : RE :=
  rcats [RE.grp 1 patDMYHyphen, rsPlus, RE.grp 2 rdotPlusLazy, rsPlus,
         RE.grp 3 patAmount2Dec, rsPlus, RE.grp 4 (ralts [rlit "DR", rlit "CR"]), rsPlus,
         RE.grp 5 patAmount2Dec]

/-- `_parse_indian_bank_transaction`: the two anchored-column patterns,
then the flexible date + amounts + DR/CR split reconstruction. -/
def parse_indian_bank_transaction (env : Env) (line sec : List Char) (n : Nat) :
    Option TxRecord :=
  match reSearch indianPattern line with
  | some m =>
    let g := m.2.2
    some { date := format_date env (pyStrip (getGrp g 1)),
           description := pyStrip (getGrp g 2),
           amount := parse_amount (getGrp g 3), amount_raw := getGrp g 3,
           transaction_type := some (pyStrip (getGrp g 4)),
           balance := some (parse_amount (getGrp g 5)), balance_raw := some (getGrp g 5),
           branch := some (pyStrip (getGrp g 6)), section_ := sec, line_number := n,
           full_text := line }
  | none =>
  match reSearch indianPatternNoBranch line with
  | some m =>
    let g := m.2.2
    some { date := format_date env (pyStrip (getGrp g 1)),
           description := pyStrip (getGrp g 2),
           amount := parse_amount (getGrp g 3), amount_raw := getGrp g 3,
           transaction_type := some (pyStrip (getGrp g 4)),
           balance := some (parse_amount (getGrp g 5)), balance_raw := some (getGrp g 5),
           branch := some [], section_ := sec, line_number := n, full_text := line }
  | none =>
  match reSearch patDMYGrp line with
  | none => none
  | some dm =>
    let date := getGrp dm.2.2 1
    let remaining_line := pyStrip (line.drop (dm.1 + dm.2.1))
    let amounts := findAllRe patAmount2Dec remaining_line
    if amounts.length < 2 then none
    else
      match reSearch patDrCrStrict remaining_line with
      | none => none
      | some tm =>
        let trans_type := getGrp tm.2.2 1
        match splitFirstSub trans_type remaining_line with
        | none => none
        | some parts =>
          let description_part := pyStrip parts.1
          let balance_branch_part := pyStrip parts.2
          let desc_amounts := findAllRe patAmount2Dec description_part
          let amount := match desc_amounts.getLast? with
            | some a => a
            | none => amounts.getD 0 []
          let description := match desc_amounts.getLast? with
            | some a => pyStrip (replaceSub a [] description_part)
            | none => description_part
          let balance_amounts := findAllRe patAmount2Dec balance_branch_part
          let balance := match balance_amounts.head? with
            | some b => b
            | none => if 1 < amounts.length then amounts.getD 1 [] else "0.00".data
          let branch := match balance_amounts.head? with
            | some b => pyStrip (replaceSub b [] balance_branch_part)
            | none => balance_branch_part
          some { date := format_date env (pyStrip date), description := pyStrip description,
                 amount := parse_amount amount, amount_raw := amount,
                 transaction_type := some (pyStrip trans_type),
                 balance := some (parse_amount balance), balance_raw := some balance,
                 branch := some (pyStrip branch), section_ := sec, line_number := n,
                 full_text := line }

/-- `[\d,]+\.?\d*`. -/
def patAmountStar : RE := rcats [rdcPlus, RE.opt (rchr '.'), rdStar]

/-- `(Jan|...)\s+\d{1,2}(?:\s+\d{4})?` (generic date pattern, IGNORECASE). -/
def patMonDDYearOpt : RE :=
  rcats [RE.grp 1 monthsAbbrCI, rsPlus, rd 1 2, RE.opt (rcats [rsPlus, rd 4 4])]

/-- `\b\d{1,2}/\d{1,2}\b`. -/
def patMDSlashWb : RE := rcats [RE.wb, rd 1 2, rchr '/', rd 1 2, RE.wb]

/-- `date_patterns_generic` of `_parse_transaction_only`, in order. -/
def date_patterns_generic : List RE :=
  [patYMD, patMDYSlash, patDMYHyphen, patMonDDYearOpt, patMDSlashWb]

/-- `[A-Z0-9]+` under IGNORECASE. -/
def ralnumPlus : RE := RE.rep (fun c => isAlphaC c || isDigitC c) 1 none true

/-- The nine `transaction_patterns` of `_parse_transaction_only`
(all searched with `re.IGNORECASE`), with their per-index field mapping. -/
def transaction_patterns_step (env : Env) (line sec : List Char) (n : Nat) :
    Option TxRecord :=
  -- 0: MM/DD/YYYY Description Amount
  match reSearch (rcats [RE.grp 1 patMDYSlash, rsPlus, RE.grp 2 rdotPlusLazy, rsPlus,
                         RE.grp 3 patAmountStar]) line with
  | some m =>
    let g := m.2.2
    some { date := format_date env (pyStrip (getGrp g 1)),
           description := pyStrip (getGrp g 2),
           amount := parse_amount (getGrp g 3), amount_raw := getGrp g 3,
           section_ := sec, line_number := n, full_text := line }
  | none =>
  -- 1: Month DD Description Amount
  match reSearch (rcats [RE.grp 1 monthsAbbrCI, rsPlus, RE.grp 2 (rd 1 2), rsPlus,
                         RE.grp 3 rdotPlusLazy, rsPlus, RE.grp 4 patAmountStar]) line with
  | some m =>
    let g := m.2.2
    let date := convert_month_day_to_date env (getGrp g 1) (getGrp g 2)
    some { date := format_date env date, description := pyStrip (getGrp g 3),
           amount := parse_amount (getGrp g 4), amount_raw := getGrp g 4,
           section_ := sec, line_number := n, full_text := line }
  | none =>
  -- 2: Description Date Amount
  match reSearch (rcats [RE.grp 1 rdotPlusLazy, rsPlus, RE.grp 2 patMDYSlash, rsPlus,
                         RE.grp 3 patAmountStar]) line with
  | some m =>
    let g := m.2.2
    some { date := format_date env (pyStrip (getGrp g 2)),
           description := pyStrip (getGrp g 1),
           amount := parse_amount (getGrp g 3), amount_raw := getGrp g 3,
           section_ := sec, line_number := n, full_text := line }
  | none =>
  -- 3: Date Description Ref Amount
  match reSearch (rcats [RE.grp 1 patMDYSlash, rsPlus, RE.grp 2 rdotPlusLazy, rsPlus,
                         RE.grp 3 ralnumPlus, rsPlus, RE.grp 4 patAmountStar]) line with
  | some m =>
    let g := m.2.2
    some { date := format_date env (pyStrip (getGrp g 1)),
           description := pyStrip (getGrp g 2) ++ " (Ref: ".data ++ pyStrip (getGrp g 3) ++ [')'],
           amount := parse_amount (getGrp g 4), amount_raw := getGrp g 4,
           section_ := sec, line_number := n, full_text := line }
  | none =>
  -- 4: Month DD Description (amount mined from the description)
  match reSearch (rcats [RE.grp 1 monthsAbbrCI, rsPlus, RE.grp 2 (rd 1 2), rsPlus,
                         RE.grp 3 rdotPlus]) line with
  | some m =>
    let g := m.2.2
    let date := convert_month_day_to_date env (getGrp g 1) (getGrp g 2)
    let amount := extract_amount_from_text (getGrp g 3)
    some { date := format_date env date, description := pyStrip (getGrp g 3),
           amount := amount, amount_raw := pyStrFloat amount,
           section_ := sec, line_number := n, full_text := line }
  | none =>
  -- 5: Month DD Description Amount (tight)
  match reSearch (rcats [RE.grp 1 monthsAbbrCI, rsPlus, RE.grp 2 (rd 1 2), rsPlus,
                         RE.grp 3 rdotPlusLazy, RE.grp 4 patAmountStar]) line with
  | some m =>
    let g := m.2.2
    let date := convert_month_day_to_date env (getGrp g 1) (getGrp g 2)
    some { date := format_date env date, description := pyStrip (getGrp g 3),
           amount := parse_amount (getGrp g 4), amount_raw := getGrp g 4,
           section_ := sec, line_number := n, full_text := line }
  | none =>
  -- 6: YYYY-MM-DD Description
  match reSearch (rcats [RE.grp 1 patYMD, rsPlus, RE.grp 2 rdotPlus]) line with
  | some m =>
    let g := m.2.2
    let amount := extract_amount_from_text (getGrp g 2)
    some { date := format_date env (getGrp g 1), description := pyStrip (getGrp g 2),
           amount := amount, amount_raw := pyStrFloat amount,
           section_ := sec, line_number := n, full_text := line }
  | none =>
  -- 7: Description YYYY-MM-DD
  match reSearch (rcats [RE.grp 1 rdotPlusLazy, rsPlus, RE.grp 2 patYMD]) line with
  | some m =>
    let g := m.2.2
    let amount := extract_amount_from_text (getGrp g 1)
    some { date := format_date env (getGrp g 2), description := pyStrip (getGrp g 1),
           amount := amount, amount_raw := pyStrFloat amount,
           section_ := sec, line_number := n, full_text := line }
  | none =>
  -- 8: MM/DD Description Amount (no year)
  match reSearch (rcats [RE.grp 1 (rcats [rd 1 2, rchr '/', rd 1 2]), rsPlus,
                         RE.grp 2 rdotPlusLazy, rsPlus, RE.grp 3 patAmountStar]) line with
  | some m =>
    let g := m.2.2
    some { date := format_date env (getGrp g 1), description := pyStrip (getGrp g 2),
           amount := parse_amount (getGrp g 3), amount_raw := getGrp g 3,
           section_ := sec, line_number := n, full_text := line }
  | none => none

/-- Date with slash-or-hyphen separators: digits 1-2, sep, digits 1-2, sep, 4 digits. -/
def patAnySepDMY : RE :=
  rcats [rd 1 2, RE.cls (fun c => c = '/' || c = '-'), rd 1 2,
         RE.cls (fun c => c = '/' || c = '-'), rd 4 4]

/-- `(Jan|...)\s+(\d{1,2})` with IGNORECASE. -/
def patMonDDGrp : RE := rcats [RE.grp 1 monthsAbbrCI, rsPlus, RE.grp 2 (rd 1 2)]

/-- `re.sub(r'\s+', ' ', l)`: collapse every whitespace run to one space. -/
def collapseWsAux : List Char → Bool → List Char
  | [], _ => []
  | c :: r, inSpace =>
    if isPySpace c then
      if inSpace then collapseWsAux r true else ' ' :: collapseWsAux r true
    else c :: collapseWsAux r false

def collapseWs (l : List Char) : List Char := collapseWsAux l false

/-- `_extract_fallback_transaction`. -/
def extract_fallback_transaction (env : Env) (line sec : List Char) (n : Nat) :
    Option TxRecord :=
  if !looks_like_transaction line then none
  else
    let date_match := reSearch patAnySepDMY line
    let month_match := reSearch patMonDDGrp line
    let yyyy_mm_dd_match := reSearch patYMD line
    let dd_mm_yyyy_match := reSearch patDMYHyphen line
    let amount_match := reSearch patAmountStar line
    let txt := fun (m : Nat × Nat × Grps) => (line.drop m.1).take m.2.1
    if (date_match.isSome || month_match.isSome || yyyy_mm_dd_match.isSome ||
        dd_mm_yyyy_match.isSome) && 2 ≤ (pySplitWs line).length then
      let date := match date_match, month_match, yyyy_mm_dd_match, dd_mm_yyyy_match with
        | some m, _, _, _ => txt m
        | none, some m, _, _ =>
          convert_month_day_to_date env (getGrp m.2.2 1) (getGrp m.2.2 2)
        | none, none, some m, _ => txt m
        | none, none, none, some m => txt m
        | none, none, none, none => []
      let amount := match amount_match with
        | none => extract_amount_from_text line
        | some m => parse_amount (txt m)
      let description := match date_match, month_match, yyyy_mm_dd_match, dd_mm_yyyy_match with
        | some m, _, _, _ => replaceSub (txt m) [] line
        | none, some m, _, _ => replaceSub (txt m) [] line
        | none, none, some m, _ => replaceSub (txt m) [] line
        | none, none, none, some m => replaceSub (txt m) [] line
        | none, none, none, none => line
      let description := match amount_match with
        | some m => replaceSub (txt m) [] description
        | none => description
      let description := collapseWs (pyStrip description)
      some { date := format_date env date,
             description := if description.isEmpty then "Transaction".data else description,
             amount := amount, amount_raw := pyStrFloat amount,
             section_ := sec, line_number := n, full_text := line }
    else if 2 ≤ (pySplitWs line).length && !is_non_transaction_line line then
      let amount := extract_amount_from_text line
      some { date := [], description := line, amount := amount,
             amount_raw := pyStrFloat amount, section_ := sec, line_number := n,
             full_text := line }
    else none

/-- The any-date alternation of the last-resort scan: slash-or-hyphen D-M-Y, then YYYY-MM-DD, then DD-MM-YYYY. -/
def patAnyDate3 : RE := ralts [patAnySepDMY, patYMD, patDMYHyphen]

/-- `_extract_any_data_from_line` (last resort). -/
def extract_any_data_from_line (env : Env) (line sec : List Char) (n : Nat) :
    Option TxRecord :=
  if (pyStrip line).length < 5 || is_non_transaction_line line then none
  else
    let date := match reSearch patAnyDate3 line with
      | some m => format_date env ((line.drop m.1).take m.2.1)
      | none => []
    let amount := extract_amount_from_text line
    let trans_type := match reSearch patDrCrAny line with
      | some m => pyUpper ((line.drop m.1).take m.2.1)
      | none => []
    let description := pyStrip line
    if !date.isEmpty || !amount.isZero || !trans_type.isEmpty || 5 < description.length then
      some { date := date, description := description, amount := amount,
             amount_raw := pyStrFloat amount, transaction_type := some trans_type,
             section_ := sec, line_number := n, full_text := line }
    else none

/-- The tail of `_parse_transaction_only` after the generic strategy
declines: the ordered template list, then the fallback, then the
last-resort scan. -/
def parse_transaction_only_rest (env : Env) (line sec : List Char) (n : Nat) :
    Option TxRecord :=
  match transaction_patterns_step env line sec n with
  | some r => some r
  | none =>
    match extract_fallback_transaction env line sec n with
    | some r => some r
    | none => extract_any_data_from_line env line sec n

/-- `_parse_transaction_only`: tabular, then Indian, then the generic
first-date + last-amount strategy, then the ordered template list, then the
fallback, then the last-resort scan. -/
def parse_transaction_only (env : Env) (line sec : List Char) (n : Nat) :
    Option TxRecord :=
  match parse_tabular_bank_data env line sec n with
  | some r => some r
  | none =>
  match parse_indian_bank_transaction env line sec n with
  | some r => some r
  | none =>
  match date_patterns_generic.findSome? (fun r => reSearch r line) with
  | some dm =>
    let last_amount_str := find_last_amount_string line
    if !last_amount_str.isEmpty then
      let raw_date := (line.drop dm.1).take dm.2.1
      let parsed_date := format_date env raw_date
      let desc1 := line.take dm.1 ++ line.drop (dm.1 + dm.2.1)
      let desc2 := match rfindSub last_amount_str desc1 with
        | some i => desc1.take i ++ desc1.drop (i + last_amount_str.length)
        | none => desc1
      let description := pyStrip (collapseWs desc2)
      let description := if description.length < 3 then "Transaction".data else description
      some { date := parsed_date, description := description,
             amount := parse_amount last_amount_str, amount_raw := last_amount_str,
             section_ := sec, line_number := n, full_text := line }
    else parse_transaction_only_rest env line sec n
  | none => parse_transaction_only_rest env line sec n

/-! ## Document pipeline -/

/-- The keep condition of the final content filter: non-blank date, or
non-zero amount, or a meaningful (longer than 3 characters) description. -/
def keepRow (r : TxRecord) : Bool :=
  let date_str := pyStrip r.date
  let description := pyStrip r.description
  !date_str.isEmpty || !r.amount.isZero || (!description.isEmpty && 3 < description.length)

/-- One iteration of the per-line loop shared by
`_extract_from_lines_with_layout` and `_extract_structured_data_enhanced`
(their loop bodies are identical): strip; skip empties; skip noise; update
the section on a header (consuming the line); segment transaction-like
lines. State: (current section, collected records). -/
def layoutStep (env : Env) (st : List Char × List TxRecord) (p : Nat × List Char) :
    List Char × List TxRecord :=
  let line := pyStrip p.2
  if line.isEmpty then st
  else if is_non_transaction_line line then st
  else
    match detect_banking_section line with
    | some s => (s, st.2)
    | none =>
      if looks_like_transaction line then
        match parse_transaction_only env line st.1 p.1 with
        | some r => (st.1, st.2 ++ [r])
        | none => st
      else st

/-- `_extract_from_lines_with_layout`: fold the loop over enumerated lines
from the `general` section, then apply the final content filter. -/
def extract_from_lines_with_layout (env : Env) (lines : List (List Char)) :
    List TxRecord :=
  ((lines.enum.foldl (layoutStep env) ("general".data, [])).2).filter keepRow

/-- `_extract_structured_data_enhanced`: the same loop and filter over
`text.split('\n')`. -/
def extract_structured_data_enhanced (env : Env) (text : List Char) : List TxRecord :=
  (((splitChar '\n' text).enum.foldl (layoutStep env) ("general".data, [])).2).filter keepRow

/-- The result value of `parse_pdf_to_structured_data`. -/
inductive ParseResult where
  | ok (structured_data : List TxRecord) (total_lines : Nat) (text_length : Nat) : ParseResult
  | err (error : List Char) : ParseResult
deriving DecidableEq

/-- `parse_pdf_to_structured_data` as a function of what the two external
text sources return: `layout_lines` from the layout-aware extractor
(pdfplumber) and `pdf_text` from the flat extractor (PyPDF2). Failure is a
result value; the embedding is total, mirroring the function's
catch-everything boundary. -/
def parse_pdf_to_structured_data (env : Env) (layout_lines : List (List Char))
    (pdf_text : List Char) : ParseResult :=
  let structured_data : List TxRecord :=
    if !layout_lines.isEmpty then extract_from_lines_with_layout env layout_lines else []
  if structured_data.isEmpty then
    if (pyStrip pdf_text).isEmpty then .err "No text extracted from PDF".data
    else
      let structured_data := extract_structured_data_enhanced env pdf_text
      if structured_data.isEmpty then .err "No structured data found".data
      else .ok structured_data structured_data.length pdf_text.length
  else
    .ok structured_data structured_data.length
      (List.intercalate ['\n'] layout_lines).length

/-- A default environment for concrete runs; no analyzed line depends on
the clock year or reaches the external date-parsing fallback. -/
def envDefault : Env := { currentYearStr := "2025".data, pdParse := fun _ => none }

/-! ## General lemmas -/

theorem digit_ne (c x : Char) (hc : isDigitC c = true) (hx : isDigitC x = false) : c ≠ x := by
  intro e
  subst e
  rw [hc] at hx
  exact Bool.noConfusion hx

theorem all_digit_ne_of_not_digit (a : List Char) (sep : Char)
    (ha : a.all isDigitC = true) (hsep : isDigitC sep = false) : ∀ c ∈ a, c ≠ sep := by
  intro c hc
  exact digit_ne c sep (by simpa using List.all_eq_true.mp ha c hc) hsep

theorem dropDigits12_sep (a : List Char) (sep : Char) (rest : List Char)
    (ha : a.all isDigitC = true) (hal : a.length = 1 ∨ a.length = 2)
    (hsep : isDigitC sep = false) :
    dropDigits12 (a ++ sep :: rest) = some (sep :: rest) := by
  rcases a with _ | ⟨d1, _ | ⟨d2, _ | ⟨d3, t⟩⟩⟩ <;> simp_all [dropDigits12]

theorem dropDigits12_two (c1 c2 : Char) (t : List Char)
    (h1 : isDigitC c1 = true) (h2 : isDigitC c2 = true) :
    dropDigits12 (c1 :: c2 :: t) = some t := by
  simp [dropDigits12, h1, h2]

theorem dropChar_cons_self (ch : Char) (t : List Char) : dropChar ch (ch :: t) = some t := by
  simp [dropChar]

theorem dropChar_cons_ne (ch c : Char) (t : List Char) (h : c ≠ ch) :
    dropChar ch (c :: t) = none := by
  simp [dropChar, h]

theorem dropDigitsExact_append (y rest : List Char) :
    ∀ n, y.all isDigitC = true → y.length = n → dropDigitsExact n (y ++ rest) = some rest := by
  induction y with
  | nil =>
    intro n _ hl
    subst hl
    simp [dropDigitsExact]
  | cons c t ih =>
    intro n hall hl
    subst hl
    simp only [List.all_cons, Bool.and_eq_true] at hall
    simpa [dropDigitsExact, hall.1] using ih t.length hall.2 rfl

theorem dropDigitsExact_succ (n : Nat) (s r : List Char)
    (h : dropDigitsExact (n + 1) s = some r) :
    ∃ c t, s = c :: t ∧ isDigitC c = true ∧ dropDigitsExact n t = some r := by
  cases s with
  | nil => simp [dropDigitsExact] at h
  | cons c t =>
    by_cases hc : isDigitC c
    · exact ⟨c, t, rfl, hc, by simpa [dropDigitsExact, hc] using h⟩
    · simp [dropDigitsExact, hc] at h

theorem splitChar_no_sep (sep : Char) (a : List Char) (h : ∀ c ∈ a, c ≠ sep) :
    splitChar sep a = [a] := by
  induction a with
  | nil => rfl
  | cons c t ih =>
    have hc : c ≠ sep := h c (List.mem_cons_self c t)
    have ht := ih fun x hx => h x (List.mem_cons_of_mem c hx)
    simp [splitChar, hc, ht]

theorem splitChar_append_cons (sep : Char) (a rest : List Char) (h : ∀ c ∈ a, c ≠ sep) :
    splitChar sep (a ++ sep :: rest) = a :: splitChar sep rest := by
  induction a with
  | nil => simp [splitChar]
  | cons c t ih =>
    have hc : c ≠ sep := h c (List.mem_cons_self c t)
    have ht := ih fun x hx => h x (List.mem_cons_of_mem c hx)
    simp only [List.cons_append, splitChar, List.append_eq]
    rw [if_neg hc, ht]

theorem matchDMYHyphenFull_token (a b y : List Char)
    (ha : a.all isDigitC = true) (hal : a.length = 1 ∨ a.length = 2)
    (hb : b.all isDigitC = true) (hbl : b.length = 1 ∨ b.length = 2)
    (hy : y.all isDigitC = true) (hyl : y.length = 4) :
    matchDMYHyphenFull (a ++ '-' :: (b ++ '-' :: y)) = true := by
  have h1 := dropDigits12_sep a '-' (b ++ '-' :: y) ha hal (by decide)
  have h2 := dropDigits12_sep b '-' y hb hbl (by decide)
  have h3 : dropDigitsExact 4 (y ++ ([] : List Char)) = some [] :=
    dropDigitsExact_append y [] 4 hy hyl
  rw [List.append_nil] at h3
  simp [matchDMYHyphenFull, h1, h2, h3, dropChar_cons_self, Option.bind]

theorem matchDMYHyphenFull_slash (a : List Char) (rest : List Char)
    (ha : a.all isDigitC = true) (hal : a.length = 1 ∨ a.length = 2) :
    matchDMYHyphenFull (a ++ '/' :: rest) = false := by
  have h1 := dropDigits12_sep a '/' rest ha hal (by decide)
  simp [matchDMYHyphenFull, h1, dropChar_cons_ne '-' '/' rest (by decide), Option.bind]

theorem matchMDYSlashPrefix_token (a b y : List Char)
    (ha : a.all isDigitC = true) (hal : a.length = 1 ∨ a.length = 2)
    (hb : b.all isDigitC = true) (hbl : b.length = 1 ∨ b.length = 2)
    (hy : y.all isDigitC = true) (hyl : y.length = 4) :
    matchMDYSlashPrefix (a ++ '/' :: (b ++ '/' :: y)) = true := by
  have h1 := dropDigits12_sep a '/' (b ++ '/' :: y) ha hal (by decide)
  have h2 := dropDigits12_sep b '/' y hb hbl (by decide)
  have h3 : dropDigitsExact 4 (y ++ ([] : List Char)) = some [] :=
    dropDigitsExact_append y [] 4 hy hyl
  rw [List.append_nil] at h3
  simp [matchMDYSlashPrefix, h1, h2, h3, dropChar_cons_self, Option.bind]

theorem matchYMDPrefix_shape (s : List Char) (h : matchYMDPrefix s = true) :
    ∃ d1 d2 d3 t, s = d1 :: d2 :: d3 :: t ∧
      isDigitC d1 = true ∧ isDigitC d2 = true ∧ isDigitC d3 = true := by
  unfold matchYMDPrefix at h
  rcases h4 : dropDigitsExact 4 s with _ | r1
  · rw [h4] at h
    simp [Option.bind] at h
  · obtain ⟨c1, t1, hs1, hd1, h3⟩ := dropDigitsExact_succ 3 s r1 h4
    obtain ⟨c2, t2, hs2, hd2, h2⟩ := dropDigitsExact_succ 2 t1 r1 h3
    obtain ⟨c3, t3, hs3, hd3, _⟩ := dropDigitsExact_succ 1 t2 r1 h2
    subst hs3
    subst hs2
    subst hs1
    exact ⟨c1, c2, c3, t3, rfl, hd1, hd2, hd3⟩

theorem pyInt_replicate_zero (k : Nat) (a : List Char) :
    pyInt (List.replicate k '0' ++ a) = pyInt a := by
  induction k with
  | zero => simp
  | succ m ih => simpa [pyInt, List.foldl] using ih

theorem pyInt_zfill2 (a : List Char) : pyInt (zfill2 a) = pyInt a :=
  pyInt_replicate_zero (2 - a.length) a

theorem zfill2_length (a : List Char) (hal : a.length = 1 ∨ a.length = 2) :
    (zfill2 a).length = 2 := by
  rcases hal with h | h <;> simp [zfill2, padZeros, h]

theorem zfill2_all_digit (a : List Char) (ha : a.all isDigitC = true) :
    (zfill2 a).all isDigitC = true := by
  simp only [zfill2, padZeros, List.all_append, Bool.and_eq_true]
  exact ⟨by simp [List.all_eq_true, isDigitC], ha⟩

/-- The first branch of `_format_date` on any `a-b-yyyy` token: day-first. -/
theorem format_date_hyphen_token (env : Env) (a b y : List Char)
    (ha : a.all isDigitC = true) (hal : a.length = 1 ∨ a.length = 2)
    (hb : b.all isDigitC = true) (hbl : b.length = 1 ∨ b.length = 2)
    (hy : y.all isDigitC = true) (hyl : y.length = 4) :
    format_date env (a ++ '-' :: (b ++ '-' :: y)) =
      y ++ '-' :: (zfill2 b ++ '-' :: zfill2 a) := by
  have hm := matchDMYHyphenFull_token a b y ha hal hb hbl hy hyl
  have hs : splitChar '-' (a ++ '-' :: (b ++ '-' :: y)) = [a, b, y] := by
    rw [splitChar_append_cons '-' a _ (all_digit_ne_of_not_digit a '-' ha (by decide)),
        splitChar_append_cons '-' b _ (all_digit_ne_of_not_digit b '-' hb (by decide)),
        splitChar_no_sep '-' y (all_digit_ne_of_not_digit y '-' hy (by decide))]
  unfold format_date
  rw [hm]
  simp only [if_true]
  rw [hs]

/-- The slash branch of `_format_date` on any `a/b/yyyy` token: the
first-component disambiguation. -/
theorem format_date_slash_token (env : Env) (a b y : List Char)
    (ha : a.all isDigitC = true) (hal : a.length = 1 ∨ a.length = 2)
    (hb : b.all isDigitC = true) (hbl : b.length = 1 ∨ b.length = 2)
    (hy : y.all isDigitC = true) (hyl : y.length = 4) :
    format_date env (a ++ '/' :: (b ++ '/' :: y)) =
      (if 12 < pyInt a then y ++ '-' :: (zfill2 b ++ '-' :: zfill2 a)
       else y ++ '-' :: (zfill2 a ++ '-' :: zfill2 b)) := by
  have hm1 := matchDMYHyphenFull_slash a (b ++ '/' :: y) ha hal
  have hm2 := matchMDYSlashPrefix_token a b y ha hal hb hbl hy hyl
  have hs : splitChar '/' (a ++ '/' :: (b ++ '/' :: y)) = [a, b, y] := by
    rw [splitChar_append_cons '/' a _ (all_digit_ne_of_not_digit a '/' ha (by decide)),
        splitChar_append_cons '/' b _ (all_digit_ne_of_not_digit b '/' hb (by decide)),
        splitChar_no_sep '/' y (all_digit_ne_of_not_digit y '/' hy (by decide))]
  unfold format_date
  rw [hm1, hm2]
  simp only [Bool.false_eq_true, if_false, if_true]
  rw [hs]

/-- Any token matching the `YYYY-MM-DD` prefix pattern is returned by
`_format_date` unchanged (the pass-through branch; all earlier branches
fail because the token starts with at least three digits). -/
theorem format_date_ymd_passthrough_lemma (env : Env) (s : List Char)
    (h : matchYMDPrefix s = true) : format_date env s = s := by
  obtain ⟨d1, d2, d3, t, rfl, h1, h2, h3⟩ := matchYMDPrefix_shape s h
  have h12 := dropDigits12_two d1 d2 (d3 :: t) h1 h2
  have hneH : dropChar '-' (d3 :: t) = none :=
    dropChar_cons_ne '-' d3 t (digit_ne d3 '-' h3 (by decide))
  have hneS : dropChar '/' (d3 :: t) = none :=
    dropChar_cons_ne '/' d3 t (digit_ne d3 '/' h3 (by decide))
  have e1 : matchDMYHyphenFull (d1 :: d2 :: d3 :: t) = false := by
    simp [matchDMYHyphenFull, h12, hneH, Option.bind]
  have e2 : matchMDYSlashPrefix (d1 :: d2 :: d3 :: t) = false := by
    simp [matchMDYSlashPrefix, h12, hneS, Option.bind]
  have e3 : matchMDYSlashFull (d1 :: d2 :: d3 :: t) = false := by
    simp [matchMDYSlashFull, h12, hneS, Option.bind]
  have e4 : matchMDSlashFull (d1 :: d2 :: d3 :: t) = false := by
    simp [matchMDSlashFull, h12, hneS, Option.bind]
  have e5 : matchMMDDYYYYHyphenFull (d1 :: d2 :: d3 :: t) = false := by
    simp [matchMMDDYYYYHyphenFull, h12, hneH, Option.bind]
  have e6 : matchMDHyphenFull (d1 :: d2 :: d3 :: t) = false := by
    simp [matchMDHyphenFull, h12, hneH, Option.bind]
  unfold format_date format_date_tail
  rw [e1, e2, e3, e4, e5, e6, h]
  simp

/-! ### Every segmenter strategy sets `full_text` to the input line -/

theorem tabular_space_full_text (env : Env) (line sec : List Char) (n : Nat) (r : TxRecord)
    (h : parse_tabular_space env line sec n = some r) : r.full_text = line := by
  unfold parse_tabular_space at h
  dsimp only at h
  repeat' split at h
  all_goals first
    | exact Option.noConfusion h
    | (cases Option.some.inj h; rfl)
    | simp_all

theorem tabular_full_text (env : Env) (line sec : List Char) (n : Nat) (r : TxRecord)
    (h : parse_tabular_bank_data env line sec n = some r) : r.full_text = line := by
  unfold parse_tabular_bank_data at h
  dsimp only at h
  repeat' split at h
  all_goals first
    | (exact tabular_space_full_text env line sec n r h)
    | exact Option.noConfusion h
    | (cases Option.some.inj h; rfl)
    | simp_all

theorem indian_full_text (env : Env) (line sec : List Char) (n : Nat) (r : TxRecord)
    (h : parse_indian_bank_transaction env line sec n = some r) : r.full_text = line := by
  unfold parse_indian_bank_transaction at h
  dsimp only at h
  repeat' split at h
  all_goals first
    | exact Option.noConfusion h
    | (cases Option.some.inj h; rfl)
    | simp_all

theorem templates_full_text (env : Env) (line sec : List Char) (n : Nat) (r : TxRecord)
    (h : transaction_patterns_step env line sec n = some r) : r.full_text = line := by
  unfold transaction_patterns_step at h
  dsimp only at h
  repeat' split at h
  all_goals first
    | exact Option.noConfusion h
    | (cases Option.some.inj h; rfl)
    | simp_all

theorem fallback_full_text (env : Env) (line sec : List Char) (n : Nat) (r : TxRecord)
    (h : extract_fallback_transaction env line sec n = some r) : r.full_text = line := by
  unfold extract_fallback_transaction at h
  dsimp only at h
  repeat' split at h
  all_goals first
    | exact Option.noConfusion h
    | (cases Option.some.inj h; rfl)
    | simp_all

theorem anydata_full_text (env : Env) (line sec : List Char) (n : Nat) (r : TxRecord)
    (h : extract_any_data_from_line env line sec n = some r) : r.full_text = line := by
  unfold extract_any_data_from_line at h
  dsimp only at h
  repeat' split at h
  all_goals first
    | exact Option.noConfusion h
    | (cases Option.some.inj h; rfl)
    | simp_all

theorem rest_full_text (env : Env) (line sec : List Char) (n : Nat) (r : TxRecord)
    (h : parse_transaction_only_rest env line sec n = some r) : r.full_text = line := by
  unfold parse_transaction_only_rest at h
  rcases ht : transaction_patterns_step env line sec n with _ | rt <;> rw [ht] at h
  · rcases hf : extract_fallback_transaction env line sec n with _ | rf <;> rw [hf] at h
    · exact anydata_full_text env line sec n r h
    · have hft := fallback_full_text env line sec n rf hf
      cases Option.some.inj h
      exact hft
  · have hft := templates_full_text env line sec n rt ht
    cases Option.some.inj h
    exact hft

theorem parse_only_full_text (env : Env) (line sec : List Char) (n : Nat) (r : TxRecord)
    (h : parse_transaction_only env line sec n = some r) : r.full_text = line := by
  unfold parse_transaction_only at h
  rcases ht : parse_tabular_bank_data env line sec n with _ | rt <;> rw [ht] at h
  · rcases hi : parse_indian_bank_transaction env line sec n with _ | ri <;> rw [hi] at h
    · rcases hd : date_patterns_generic.findSome? (fun p => reSearch p line) with _ | dm <;>
        rw [hd] at h
      · exact rest_full_text env line sec n r h
      · dsimp only at h
        split at h
        · cases Option.some.inj h
          rfl
        · exact rest_full_text env line sec n r h
    · have hft := indian_full_text env line sec n ri hi
      cases Option.some.inj h
      exact hft
  · have hft := tabular_full_text env line sec n rt ht
    cases Option.some.inj h
    exact hft

/-! ### Pipeline loop lemmas -/

theorem layoutStep_mem (env : Env) (st : List Char × List TxRecord) (p : Nat × List Char)
    (r : TxRecord) (h : r ∈ (layoutStep env st p).2) :
    r ∈ st.2 ∨ is_non_transaction_line r.full_text = false := by
  unfold layoutStep at h
  dsimp only at h
  split at h
  · exact Or.inl h
  · split at h
    · exact Or.inl h
    · split at h
      · exact Or.inl h
      · split at h
        · split at h
          · rcases List.mem_append.mp h with h1 | h2
            · exact Or.inl h1
            · right
              obtain rfl := List.mem_singleton.mp h2
              rw [parse_only_full_text env _ _ _ _ (by assumption)]
              simp_all
          · exact Or.inl h
        · exact Or.inl h

theorem layout_fold_mem (env : Env) (lines : List (Nat × List Char)) :
    ∀ (st : List Char × List TxRecord) (r : TxRecord),
      r ∈ (lines.foldl (layoutStep env) st).2 →
      r ∈ st.2 ∨ is_non_transaction_line r.full_text = false := by
  induction lines with
  | nil =>
    intro st r h
    exact Or.inl h
  | cons p t ih =>
    intro st r h
    rcases ih (layoutStep env st p) r h with hmem | hok
    · exact layoutStep_mem env st p r hmem
    · exact Or.inr hok

/-- A record the layout pipeline returns never comes from a line the noise
filter flags. -/
theorem extract_layout_not_noise (env : Env) (lines : List (List Char)) (r : TxRecord)
    (h : r ∈ extract_from_lines_with_layout env lines) :
    is_non_transaction_line r.full_text = false := by
  unfold extract_from_lines_with_layout at h
  have hm := (List.mem_filter.mp h).1
  rcases layout_fold_mem env lines.enum ("general".data, []) r hm with h1 | h2
  · simp at h1
  · exact h2

/-- A noise line leaves the loop state (section and collected records)
unchanged: the noise check precedes section detection and segmentation. -/
theorem layoutStep_noise (env : Env) (st : List Char × List TxRecord) (p : Nat × List Char)
    (h : is_non_transaction_line (pyStrip p.2) = true) : layoutStep env st p = st := by
  unfold layoutStep
  dsimp only
  split
  · rfl
  · simp [h]

theorem extract_layout_keep (env : Env) (lines : List (List Char)) (r : TxRecord)
    (h : r ∈ extract_from_lines_with_layout env lines) : keepRow r = true := by
  unfold extract_from_lines_with_layout at h
  exact (List.mem_filter.mp h).2

theorem extract_enhanced_keep (env : Env) (text : List Char) (r : TxRecord)
    (h : r ∈ extract_structured_data_enhanced env text) : keepRow r = true := by
  unfold extract_structured_data_enhanced at h
  exact (List.mem_filter.mp h).2

/-! ### Last-match characterization for the amount extractor -/

theorem filter_getLast_eq_reverse_find (l : List (List Char)) (p : List Char → Bool) :
    (l.filter p).getLast? = l.reverse.find? p := by
  induction l using List.reverseRecOn with
  | nil => simp
  | append_singleton l a ih =>
    by_cases hp : p a
    · simp [List.filter_append, hp, List.getLast?_concat, List.find?_cons]
    · simp [List.filter_append, hp, List.find?_cons, ih]

/-! ## Claim-support definitions and lemmas -/

/-- Canonical `YYYY-MM-DD` (the spec's §3 date form): exactly four digits,
a hyphen, two digits, a hyphen, two digits. -/
def isCanonicalYMD : List Char → Bool
  | [y1, y2, y3, y4, s1, m1, m2, s2, d1, d2] =>
    isDigitC y1 && isDigitC y2 && isDigitC y3 && isDigitC y4 && s1 = '-' &&
    isDigitC m1 && isDigitC m2 && s2 = '-' && isDigitC d1 && isDigitC d2
  | _ => false

/-- The spec's words for `extract_last_amount_token` (§4.1): "scans all
amount-pattern matches in a string and returns the *last* one whose
absolute numeric value lies in [0.01, 999999.99]" — the first in-range
match of the reversed match list. Stated from the spec, to be compared
with `find_last_amount_string` (which filters, then takes the last). -/
def extract_last_amount_token_spec (text : List Char) : List Char :=
  ((all_amount_matches text).reverse.find? amount_in_range).getD []

def lineIndian : List Char :=
  "15-03-2024 UPI Transfer To Merchant 250.00 DR 10,000.00 Main Branch".data

def lineYMDUnpadded : List Char := "2024-3-5 Payment Store 45.00".data

def lineParenAmount : List Char := "03/15/2024 Refund Issued (1,234.56)".data

def linePOBox : List Char := "P O Box 123 Payment Center".data

def textC4 : List Char := "Paid 12 on 2024 invoice 1,234.56".data

/-- The record the pipeline emits for `lineYMDUnpadded`. -/
def recYMDUnpadded : TxRecord :=
  { date := "2024-3-5".data, description := "Payment Store".data,
    amount := Dec.ofInt 45, amount_raw := "45.00".data,
    section_ := "general".data, line_number := 0, full_text := lineYMDUnpadded }

/-- The code's keep condition written as the spec's three-way disjunction:
non-blank trimmed date, non-zero amount, or trimmed description longer
than 3 characters (the non-emptiness conjunct of the third test is implied
by the length bound). -/
theorem keepRow_eq (r : TxRecord) :
    keepRow r = (!(pyStrip r.date).isEmpty || !r.amount.isZero ||
      decide (3 < (pyStrip r.description).length)) := by
  unfold keepRow
  dsimp only
  by_cases h3 : 3 < (pyStrip r.description).length
  · have he : (pyStrip r.description).isEmpty = false := by
      rcases hd : pyStrip r.description with _ | ⟨c, t⟩
      · rw [hd] at h3
        simp at h3
      · rfl
    simp [h3, he]
  · simp [h3]

theorem exists_two (m : List Char) (h : m.length = 2) : ∃ a b, m = [a, b] := by
  rcases m with _ | ⟨a, _ | ⟨b, _ | ⟨c, t⟩⟩⟩ <;> simp_all

theorem exists_four (y : List Char) (h : y.length = 4) : ∃ a b c d, y = [a, b, c, d] := by
  rcases y with _ | ⟨a, _ | ⟨b, _ | ⟨c, _ | ⟨d, _ | ⟨e, t⟩⟩⟩⟩⟩ <;> simp_all

theorem isCanonicalYMD_of_parts (y m d : List Char)
    (hy : y.all isDigitC = true) (hyl : y.length = 4)
    (hm : m.all isDigitC = true) (hml : m.length = 2)
    (hd : d.all isDigitC = true) (hdl : d.length = 2) :
    isCanonicalYMD (y ++ '-' :: (m ++ '-' :: d)) = true := by
  obtain ⟨y1, y2, y3, y4, rfl⟩ := exists_four y hyl
  obtain ⟨m1, m2, rfl⟩ := exists_two m hml
  obtain ⟨d1, d2, rfl⟩ := exists_two d hdl
  simp_all [isCanonicalYMD]

/-! ## Claims -/

/-- C1: for every `a/b/yyyy` date token (one- or two-digit `a` and `b`,
four-digit year), `_format_date` returns `yyyy-b-a` (day-first) when
`a > 12` and `yyyy-a-b` (month-first) otherwise, components zero-padded to
two digits; the padded components keep their numeric values (the returned
`YYYY-MM-DD` string denotes the calendar date of the stated
interpretation) and are exactly two digits wide. -/
theorem c1_slash_date_day_first_rule (env : Env) (a b y : List Char)
    (ha : a.all isDigitC = true) (hal : a.length = 1 ∨ a.length = 2)
    (hb : b.all isDigitC = true) (hbl : b.length = 1 ∨ b.length = 2)
    (hy : y.all isDigitC = true) (hyl : y.length = 4) :
    format_date env (a ++ '/' :: (b ++ '/' :: y)) =
      (if 12 < pyInt a then y ++ '-' :: (zfill2 b ++ '-' :: zfill2 a)
       else y ++ '-' :: (zfill2 a ++ '-' :: zfill2 b)) ∧
    pyInt (zfill2 a) = pyInt a ∧ pyInt (zfill2 b) = pyInt b ∧
    (zfill2 a).length = 2 ∧ (zfill2 b).length = 2 :=
  ⟨format_date_slash_token env a b y ha hal hb hbl hy hyl,
   pyInt_zfill2 a, pyInt_zfill2 b, zfill2_length a hal, zfill2_length b hbl⟩

/-- Witness for C1 at the concrete day-first token `15/03/2024`. -/
theorem c1_slash_date_day_first_rule_witness :
    format_date envDefault ("15".data ++ '/' :: ("03".data ++ '/' :: "2024".data)) =
      (if 12 < pyInt "15".data
       then "2024".data ++ '-' :: (zfill2 "03".data ++ '-' :: zfill2 "15".data)
       else "2024".data ++ '-' :: (zfill2 "15".data ++ '-' :: zfill2 "03".data)) ∧
    pyInt (zfill2 "15".data) = pyInt "15".data ∧
    pyInt (zfill2 "03".data) = pyInt "03".data ∧
    (zfill2 "15".data).length = 2 ∧ (zfill2 "03".data).length = 2 :=
  c1_slash_date_day_first_rule envDefault "15".data "03".data "2024".data
    (by decide) (by decide) (by decide) (by decide) (by decide) (by decide)

/-- C2: segmenting the Indian-statement line
`"15-03-2024 UPI Transfer To Merchant 250.00 DR 10,000.00 Main Branch"`
through `_parse_transaction_only` — for any environment, section tag and
line index — yields date `2024-03-15`, description
`UPI Transfer To Merchant`, amount `250.0`, type `DR`, balance `10000.0`
and branch `Main Branch`. -/
theorem c2_indian_line_record (env : Env) (sec : List Char) (n : Nat) :
    parse_transaction_only env lineIndian sec n =
      some { date := "2024-03-15".data, description := "UPI Transfer To Merchant".data,
             amount := Dec.ofInt 250, amount_raw := "250.00".data,
             transaction_type := some "DR".data, balance := some (Dec.ofInt 10000),
             balance_raw := some "10,000.00".data, branch := some "Main Branch".data,
             section_ := sec, line_number := n, full_text := lineIndian } := rfl

/-- C3: both pipeline entry points return only records passing the
final content filter — non-blank trimmed date, or non-zero amount, or
trimmed description longer than 3 characters — so a record with none of
these never appears in the output. -/
theorem c3_min_content_filter :
    (∀ (env : Env) (lines : List (List Char)) (r : TxRecord),
        r ∈ extract_from_lines_with_layout env lines → keepRow r = true) ∧
    (∀ (env : Env) (text : List Char) (r : TxRecord),
        r ∈ extract_structured_data_enhanced env text → keepRow r = true) ∧
    (∀ r : TxRecord,
        keepRow r = (!(pyStrip r.date).isEmpty || !r.amount.isZero ||
          decide (3 < (pyStrip r.description).length))) :=
  ⟨extract_layout_keep, extract_enhanced_keep, keepRow_eq⟩

/-- Witness for C3's filter at a concrete pipeline record. -/
theorem c3_min_content_filter_witness :
    keepRow recYMDUnpadded = true :=
  c3_min_content_filter.1 envDefault [lineYMDUnpadded] recYMDUnpadded (by decide)

/-- C4 (amended): `_find_last_amount_string` returns the last
amount-pattern match whose absolute value lies in `[0.01, 999999.99]` (and
`''` when none is in range) — proved as equality with the spec-worded
reverse-search definition — and on `"Paid 12 on 2024 invoice 1,234.56"`
it returns `"1,234.56"`; however the year `2024` is itself inside the
valid range and is *not* excluded by the range filter — it is merely not
the last valid match. -/
theorem c4_last_amount_in_range_rule :
    (∀ text, find_last_amount_string text = extract_last_amount_token_spec text) ∧
    find_last_amount_string textC4 = "1,234.56".data ∧
    amount_in_range "2024".data = true ∧
    "2024".data ∈ all_amount_matches textC4 := by
  refine ⟨?_, by decide, by decide, by decide⟩
  intro text
  unfold find_last_amount_string extract_last_amount_token_spec valid_amount_matches
  rw [List.getLastD_eq_getLast?, filter_getLast_eq_reverse_find]

/-- C4 counterexample: the claim says the year 2024 is "excluded by the
range filter"; it is not — `"2024"` is an amount-pattern match of that
very string and passes the `[0.01, 999999.99]` test, so it sits in the
code's `valid_matches` list. -/
theorem c4_year_2024_not_excluded :
    amount_in_range "2024".data = true ∧
    "2024".data ∈ valid_amount_matches textC4 := by
  exact ⟨by decide, by decide⟩

/-- C5: `_parse_amount` is total (it returns a value on every input —
never raises): `"(1,234.56)"` gives `-1234.56` (accounting negative),
`"1,234.56"` gives `1234.56` (commas stripped), `"abc"` gives `0.0`, and
on every string whose cleaned form is not a number the result is `0.0`. -/
theorem c5_parse_amount_total :
    parse_amount "(1,234.56)".data = mkDec (-123456) 2 ∧
    parse_amount "1,234.56".data = mkDec 123456 2 ∧
    parse_amount "abc".data = decZero ∧
    (∀ s : List Char, pyFloat? (parse_amount_cleaned s) = none →
      parse_amount s = decZero) := by
  refine ⟨by decide, by decide, by decide, ?_⟩
  intro s h
  unfold parse_amount
  dsimp only
  cases he : (parse_amount_cleaned s).isEmpty
  · simp [he, h]
  · simp [he, (by decide : decZero.lt decZero = false)]

/-- Witness for C5's failure clause at the concrete garbage input `"xy"`. -/
theorem c5_parse_amount_total_witness :
    pyFloat? (parse_amount_cleaned "xy".data) = none ∧
    parse_amount "xy".data = decZero :=
  ⟨by decide, c5_parse_amount_total.2.2.2 "xy".data (by decide)⟩

/-- C6 counterexample: the layout pipeline run on
`"2024-3-5 Payment Store 45.00"` returns a record whose date `"2024-3-5"`
is non-empty but not in canonical `YYYY-MM-DD` form (single-digit month
and day survive the pass-through branch unpadded). -/
theorem c6_unpadded_date_counterexample :
    extract_from_lines_with_layout envDefault [lineYMDUnpadded] = [recYMDUnpadded] ∧
    recYMDUnpadded.date ≠ [] ∧
    isCanonicalYMD recYMDUnpadded.date = false := by
  exact ⟨by decide, by decide, by decide⟩

/-- C6 (amended): non-empty dates of emitted records are not always
canonical `YYYY-MM-DD`: any token matching the `\d{4}-\d{1,2}-\d{1,2}`
prefix pattern is returned by `_format_date` unchanged, so unpadded
tokens such as `"2024-3-5"` surface in emitted records; dates produced by
the day-first hyphen branch, by contrast, are always canonical. -/
theorem c6_date_format_amended :
    (∀ (env : Env) (s : List Char), matchYMDPrefix s = true → format_date env s = s) ∧
    extract_from_lines_with_layout envDefault [lineYMDUnpadded] = [recYMDUnpadded] ∧
    matchYMDPrefix recYMDUnpadded.date = true ∧
    isCanonicalYMD recYMDUnpadded.date = false ∧
    (∀ (env : Env) (a b y : List Char),
        a.all isDigitC = true → (a.length = 1 ∨ a.length = 2) →
        b.all isDigitC = true → (b.length = 1 ∨ b.length = 2) →
        y.all isDigitC = true → y.length = 4 →
        isCanonicalYMD (format_date env (a ++ '-' :: (b ++ '-' :: y))) = true) := by
  refine ⟨format_date_ymd_passthrough_lemma, by decide, by decide, by decide, ?_⟩
  intro env a b y ha hal hb hbl hy hyl
  rw [format_date_hyphen_token env a b y ha hal hb hbl hy hyl]
  exact isCanonicalYMD_of_parts y (zfill2 b) (zfill2 a) hy hyl
    (zfill2_all_digit b hb) (zfill2_length b hbl)
    (zfill2_all_digit a ha) (zfill2_length a hal)

/-- C7: a line flagged by `_is_non_transaction_line` never contributes a
record — every emitted record's source line passes the noise check, and a
noise line leaves the loop state untouched (the check precedes section
detection and segmentation); in particular
`"P O Box 123 Payment Center"` is noise, contains `"Payment"`, and yields
no record. -/
theorem c7_noise_priority :
    (∀ (env : Env) (lines : List (List Char)) (r : TxRecord),
        r ∈ extract_from_lines_with_layout env lines →
        is_non_transaction_line r.full_text = false) ∧
    (∀ (env : Env) (st : List Char × List TxRecord) (p : Nat × List Char),
        is_non_transaction_line (pyStrip p.2) = true → layoutStep env st p = st) ∧
    is_non_transaction_line linePOBox = true ∧
    containsSub (pyLower "Payment".data) (pyLower linePOBox) = true ∧
    extract_from_lines_with_layout envDefault [linePOBox] = [] :=
  ⟨extract_layout_not_noise, layoutStep_noise, by decide, by decide, by decide⟩

/-- C8: `parse_pdf_to_structured_data` reports failure as a value (its
embedding is a total function, mirroring the catch-everything boundary —
nothing escapes as an exception): a successful result never carries an
empty record list; when no record was extracted and the flat text is
blank it returns the `"No text extracted from PDF"` failure; when text
exists but the filtered sequence is empty it returns the
`"No structured data found"` failure. -/
theorem c8_failure_as_result_value :
    (∀ (env : Env) (ll : List (List Char)) (t : List Char) (d : List TxRecord) (tl len : Nat),
        parse_pdf_to_structured_data env ll t = .ok d tl len → d ≠ []) ∧
    (∀ (env : Env) (ll : List (List Char)) (t : List Char),
        extract_from_lines_with_layout env ll = [] → pyStrip t = [] →
        parse_pdf_to_structured_data env ll t = .err "No text extracted from PDF".data) ∧
    (∀ (env : Env) (ll : List (List Char)) (t : List Char),
        extract_from_lines_with_layout env ll = [] → pyStrip t ≠ [] →
        extract_structured_data_enhanced env t = [] →
        parse_pdf_to_structured_data env ll t = .err "No structured data found".data) := by
  refine ⟨?_, ?_, ?_⟩
  · intro env ll t d tl len h
    unfold parse_pdf_to_structured_data at h
    dsimp only at h
    repeat' split at h
    all_goals first
      | exact ParseResult.noConfusion h
      | (injection h with h1 h2 h3; subst h1; intro hc; simp_all)
      | simp_all
  · intro env ll t hex ht
    unfold parse_pdf_to_structured_data
    dsimp only
    have hstr : (if !ll.isEmpty then extract_from_lines_with_layout env ll else []) = [] := by
      split <;> simp [hex]
    rw [hstr]
    simp [ht]
  · intro env ll t hex ht henh
    unfold parse_pdf_to_structured_data
    dsimp only
    have hstr : (if !ll.isEmpty then extract_from_lines_with_layout env ll else []) = [] := by
      split <;> simp [hex]
    rw [hstr]
    have ht2 : (pyStrip t).isEmpty = false := by
      rcases hq : pyStrip t with _ | ⟨c, q⟩
      · exact absurd hq ht
      · rfl
    simp [ht2, henh]

/-- C9: every `a-b-yyyy` hyphen token takes the day-first branch of
`_format_date` — the result is `yyyy-b-a` even when `a ≤ 12` — and the
guard of the later branch labelled `MM-DD-YYYY (US format)` is the very
same recognizer as the day-first branch's, so that branch can never
execute. -/
theorem c9_hyphen_always_day_first (env : Env) (a b y : List Char)
    (ha : a.all isDigitC = true) (hal : a.length = 1 ∨ a.length = 2)
    (hb : b.all isDigitC = true) (hbl : b.length = 1 ∨ b.length = 2)
    (hy : y.all isDigitC = true) (hyl : y.length = 4) :
    format_date env (a ++ '-' :: (b ++ '-' :: y)) =
      y ++ '-' :: (zfill2 b ++ '-' :: zfill2 a) ∧
    (∀ s : List Char, matchMMDDYYYYHyphenFull s = matchDMYHyphenFull s) :=
  ⟨format_date_hyphen_token env a b y ha hal hb hbl hy hyl, fun _ => rfl⟩

/-- Witness for C9 at `03-04-2024`, where a month-first reading would also
be valid yet the result is day-first `2024-04-03`. -/
theorem c9_hyphen_always_day_first_witness :
    format_date envDefault ("03".data ++ '-' :: ("04".data ++ '-' :: "2024".data)) =
      "2024".data ++ '-' :: (zfill2 "04".data ++ '-' :: zfill2 "03".data) ∧
    (∀ s : List Char, matchMMDDYYYYHyphenFull s = matchDMYHyphenFull s) :=
  c9_hyphen_always_day_first envDefault "03".data "04".data "2024".data
    (by decide) (by decide) (by decide) (by decide) (by decide) (by decide)

/-- C10: on `"03/15/2024 Refund Issued (1,234.56)"` the parenthesized
match `"(1,234.56)"` is among the amount matches, yet
`_find_last_amount_string` returns the bare `"1,234.56"` (the
parenthesis-free patterns' matches come later in the list), so the
generic strategy records the positive amount `1234.56` — although
`_parse_amount` applied to the parenthesized token itself yields
`-1234.56`: the accounting-negative sign is lost. -/
theorem c10_paren_negative_sign_lost (env : Env) (sec : List Char) (n : Nat) :
    "(1,234.56)".data ∈ all_amount_matches lineParenAmount ∧
    find_last_amount_string lineParenAmount = "1,234.56".data ∧
    parse_transaction_only env lineParenAmount sec n =
      some { date := "2024-03-15".data, description := "Refund Issued ()".data,
             amount := mkDec 123456 2, amount_raw := "1,234.56".data,
             section_ := sec, line_number := n, full_text := lineParenAmount } ∧
    decZero.lt (mkDec 123456 2) = true ∧
    parse_amount "(1,234.56)".data = mkDec (-123456) 2 :=
  ⟨by decide, by decide, rfl, by decide, by decide⟩

end PdfParser
